import Mathlib

/-!
Shallow embedding of `app_v2.py` (chess-robot move controller) and proofs of
the specification's claims about it.

The Python program is a straight-line orchestrator: a static 64-entry position
table, a home-sequence generator, a coordinate validator, an eleven-step move
routine replaying named instruction sequences loaded from `command.json`, and a
CLI entry point.  Effects (remote tool dispatch, file loading) are modelled by
explicit parameters: a dispatch oracle `call : String → List (String × String) →
Except String Unit` standing for the remote actuator interface, and a
`config : Except ConfigError (List (String × List Instr))` standing for the
result of opening and JSON-decoding `command.json`.  Execution returns the
trace of events it produced, so "which instructions were dispatched" is a
plain equation on traces.
-/

/-- Position entry of `POSITION_DATA`: forward distance in mm and rotation
angle in degrees. -/
structure PositionEntry where
  forward : Int
  rotation : Int
  deriving DecidableEq, Repr

set_option maxHeartbeats 1000000 in
/-- Embedding of the `POSITION_DATA` dict (app_v2.py lines 13-93): association
list from square name to its motion parameters, in source order. -/
def POSITION_DATA : List (String × PositionEntry) :=
  [("a8", ⟨30, -90⟩), ("a7", ⟨70, -90⟩), ("a6", ⟨120, -90⟩), ("a5", ⟨150, -90⟩),
   ("a4", ⟨180, -90⟩), ("a3", ⟨210, -90⟩), ("a2", ⟨240, -90⟩), ("a1", ⟨270, -90⟩),
   ("b8", ⟨42, -45⟩), ("b7", ⟨98, -45⟩), ("b6", ⟨169, -45⟩), ("b5", ⟨212, -45⟩),
   ("b4", ⟨254, -45⟩), ("b3", ⟨297, -45⟩), ("b2", ⟨339, -45⟩), ("b1", ⟨382, -45⟩),
   ("c8", ⟨32, -22⟩), ("c7", ⟨76, -22⟩), ("c6", ⟨130, -22⟩), ("c5", ⟨163, -22⟩),
   ("c4", ⟨195, -22⟩), ("c3", ⟨228, -22⟩), ("c2", ⟨260, -22⟩), ("c1", ⟨292, -22⟩),
   ("d8", ⟨30, 0⟩), ("d7", ⟨70, 0⟩), ("d6", ⟨120, 0⟩), ("d5", ⟨150, 0⟩),
   ("d4", ⟨180, 0⟩), ("d3", ⟨210, 0⟩), ("d2", ⟨240, 0⟩), ("d1", ⟨270, 0⟩),
   ("e8", ⟨32, 22⟩), ("e7", ⟨76, 22⟩), ("e6", ⟨130, 22⟩), ("e5", ⟨163, 22⟩),
   ("e4", ⟨195, 22⟩), ("e3", ⟨228, 22⟩), ("e2", ⟨260, 22⟩), ("e1", ⟨292, 22⟩),
   ("f8", ⟨42, 45⟩), ("f7", ⟨98, 45⟩), ("f6", ⟨169, 45⟩), ("f5", ⟨212, 45⟩),
   ("f4", ⟨254, 45⟩), ("f3", ⟨297, 45⟩), ("f2", ⟨339, 45⟩), ("f1", ⟨382, 45⟩),
   ("g8", ⟨78, 67⟩), ("g7", ⟨179, 67⟩), ("g6", ⟨307, 67⟩), ("g5", ⟨384, 67⟩),
   ("g4", ⟨461, 67⟩), ("g3", ⟨538, 67⟩), ("g2", ⟨614, 67⟩), ("g1", ⟨691, 67⟩),
   ("h8", ⟨30, 90⟩), ("h7", ⟨70, 90⟩), ("h6", ⟨120, 90⟩), ("h5", ⟨150, 90⟩),
   ("h4", ⟨180, 90⟩), ("h3", ⟨210, 90⟩), ("h2", ⟨240, 90⟩), ("h1", ⟨270, 90⟩)]

/-- One instruction of a sequence: either a pure delay directive
(`{"wait": seconds}`) or a tool dispatch (`{"tool": ..., "args": ...}`).
Argument values are the strings the program puts in them. -/
inductive Instr where
  | wait (seconds : Nat)
  | dispatch (tool : String) (args : List (String × String))
  deriving DecidableEq, Repr

/-- Embedding of `create_home_sequence` (app_v2.py lines 127-142): the fixed
four-instruction skeleton plus a conditional rotation reset. -/
def create_home_sequence (forward_distance rotation_angle : Int) : List Instr :=
  let rotation_reset := if rotation_angle ≠ 0 then -rotation_angle else 0
  let home_sequence : List Instr :=
    [Instr.dispatch "move_robot" [("move_gripper_up_mm", "50")],
     Instr.dispatch "move_robot" [("tilt_gripper_down_angle", "-80")],
     Instr.dispatch "move_robot" [("move_gripper_up_mm", "-75")],
     Instr.dispatch "move_robot" [("move_gripper_forward_mm", "-" ++ toString forward_distance)]]
  if rotation_reset ≠ 0 then
    home_sequence ++ [Instr.dispatch "move_robot" [("rotate_robot_right_angle", toString rotation_reset)]]
  else
    home_sequence

/-- Embedding of `validate_position` (app_v2.py lines 153-167).  Python indexes
the string by code point, so the checks are phrased on `position.data`; the
length-2 test comes first exactly as in the source (the catch-all branch is the
`len(position) != 2` rejection). -/
def validate_position (position : String) : Bool × String :=
  match position.data with
  | [c0, c1] =>
    if c0 ∉ "abcdefgh".data then
      (false, "Invalid column \x27" ++ String.singleton c0 ++ "\x27. Must be a-h.")
    else if c1 ∉ "12345678".data then
      (false, "Invalid row \x27" ++ String.singleton c1 ++ "\x27. Must be 1-8.")
    else if (List.lookup position POSITION_DATA).isNone then
      (false, "Position \x27" ++ position ++ "\x27 not available in position data.")
    else
      (true, "Valid")
  | _ => (false, "Invalid position format. Use format like \x27d7\x27, \x27e5\x27, etc.")

/-- Observable action of one step inside `execute_robot_sequence`: a wait or a
tool dispatch sent to the remote actuator interface. -/
inductive StepEvent where
  | waited (seconds : Nat)
  | dispatched (tool : String) (args : List (String × String))
  deriving DecidableEq, Repr

/-- Event produced by one successfully processed instruction. -/
def stepEventOf : Instr → StepEvent
  | Instr.wait s => StepEvent.waited s
  | Instr.dispatch t a => StepEvent.dispatched t a

/-- Embedding of the loop body of `execute_robot_sequence` (app_v2.py lines
108-121): replay the steps in order against the dispatch oracle `call`; a wait
directive suspends, a tool step is dispatched and awaited.  A raised dispatch
failure leaves the loop at once (caught, logged and re-raised at lines
123-125), so the returned trace stops at the failing dispatch and the error is
returned.  The connect/initialize framing performs no robot motion and is kept
out of the trace. -/
def execute_robot_sequence (call : String → List (String × String) → Except String Unit) :
    List Instr → List StepEvent × Except String Unit
  | [] => ([], Except.ok ())
  | Instr.wait s :: rest =>
    let r := execute_robot_sequence call rest
    (StepEvent.waited s :: r.1, r.2)
  | Instr.dispatch t a :: rest =>
    match call t a with
    | Except.ok _ =>
      let r := execute_robot_sequence call rest
      (StepEvent.dispatched t a :: r.1, r.2)
    | Except.error e => ([StepEvent.dispatched t a], Except.error e)

/-- Observable outcome of one sequence-level execution issued by the
orchestrator: a named sequence found and replayed, a named sequence skipped
because its label is absent from the command store (the `return` at app_v2.py
line 148), or a synthesized home sequence replayed. -/
inductive ExecEvent where
  | namedSeq (label : String) (steps : List StepEvent)
  | namedMissing (label : String)
  | homeSeq (seq : List Instr) (steps : List StepEvent)
  deriving DecidableEq, Repr

/-- Sequence-execution tag used to state the claims about the order of
sequence executions, forgetting the per-instruction step events. -/
inductive SeqExec where
  | runNamed (label : String)
  | skippedMissing (label : String)
  | runHome (seq : List Instr)
  deriving DecidableEq, Repr

/-- Forget the step events of an `ExecEvent`. -/
def tagOf : ExecEvent → SeqExec
  | ExecEvent.namedSeq l _ => SeqExec.runNamed l
  | ExecEvent.namedMissing l => SeqExec.skippedMissing l
  | ExecEvent.homeSeq s _ => SeqExec.runHome s

/-- Embedding of `execute_command_sequence` (app_v2.py lines 144-151): a
missing label prints an error and returns normally (no exception is raised);
a present label is replayed by `execute_robot_sequence`. -/
def execute_command_sequence (call : String → List (String × String) → Except String Unit)
    (command_name : String) (commands : List (String × List Instr)) :
    ExecEvent × Except String Unit :=
  match List.lookup command_name commands with
  | none => (ExecEvent.namedMissing command_name, Except.ok ())
  | some seq =>
    let r := execute_robot_sequence call seq
    (ExecEvent.namedSeq command_name r.1, r.2)

/-- Errors of loading `command.json` (app_v2.py lines 176-184). -/
inductive ConfigError where
  | fileNotFound
  | jsonDecodeError
  deriving DecidableEq, Repr

/-- Outcome of `move_chess_piece`: the early returns of app_v2.py lines
179-193, a `KeyError` from the `POSITION_DATA[...]` accesses at lines 196-197,
a re-raised sequence failure (lines 246-248), or normal completion. -/
inductive MoveResult where
  | configFileNotFound
  | configJSONDecodeError
  | fromNotInCommands
  | toNotInCommands
  | keyError
  | moveFailed (e : String)
  | moveCompleted
  deriving DecidableEq, Repr

/-- One step of the orchestrator's fixed plan: run a named sequence from the
command store, or run the home sequence synthesized from position data. -/
inductive PlanStep where
  | named (label : String)
  | home (forward rotation : Int)
  deriving DecidableEq, Repr

/-- The eleven steps of `move_chess_piece` in source order (app_v2.py lines
205-241): attack, open, source square, close, home from source, attack,
destination square, open, home from destination, close, move_for_cam. -/
def move_steps (from_position to_position : String)
    (from_data to_data : PositionEntry) : List PlanStep :=
  [PlanStep.named "attack",
   PlanStep.named "open",
   PlanStep.named from_position,
   PlanStep.named "close",
   PlanStep.home from_data.forward from_data.rotation,
   PlanStep.named "attack",
   PlanStep.named to_position,
   PlanStep.named "open",
   PlanStep.home to_data.forward to_data.rotation,
   PlanStep.named "close",
   PlanStep.named "move_for_cam"]

/-- Run one plan step: a named step is `execute_command_sequence`, a home step
is `create_home_sequence` followed by `execute_robot_sequence` (app_v2.py
lines 219-221 and 233-235). -/
def run_step (call : String → List (String × String) → Except String Unit)
    (commands : List (String × List Instr)) : PlanStep → ExecEvent × Except String Unit
  | PlanStep.named label => execute_command_sequence call label commands
  | PlanStep.home f r =>
    let seq := create_home_sequence f r
    let r2 := execute_robot_sequence call seq
    (ExecEvent.homeSeq seq r2.1, r2.2)

/-- The instruction sequence a plan step replays: a named step replays the
command store's sequence for its label (when present), a home step replays the
synthesized home sequence. -/
def step_seq (commands : List (String × List Instr)) : PlanStep → Option (List Instr)
  | PlanStep.named label => List.lookup label commands
  | PlanStep.home f r => some (create_home_sequence f r)

/-- The sequence-level event a plan step wraps its step events in. -/
def step_event : PlanStep → List StepEvent → ExecEvent
  | PlanStep.named label, steps => ExecEvent.namedSeq label steps
  | PlanStep.home f r, steps => ExecEvent.homeSeq (create_home_sequence f r) steps

/-- Run plan steps in order; a raised failure aborts the remaining steps and
is propagated (the `try`/`except`/`raise` of app_v2.py lines 205-248). -/
def run_steps (call : String → List (String × String) → Except String Unit)
    (commands : List (String × List Instr)) : List PlanStep → List ExecEvent × Except String Unit
  | [] => ([], Except.ok ())
  | s :: rest =>
    let r := run_step call commands s
    match r.2 with
    | Except.error e => ([r.1], Except.error e)
    | Except.ok _ =>
      let rs := run_steps call commands rest
      (r.1 :: rs.1, rs.2)

/-- Embedding of `move_chess_piece` (app_v2.py lines 169-248): config load
(modelled by the `config` argument), the two membership pre-checks on the
command store, the `POSITION_DATA` accesses, then the eleven-step plan. -/
def move_chess_piece (call : String → List (String × String) → Except String Unit)
    (config : Except ConfigError (List (String × List Instr)))
    (from_position to_position : String) : List ExecEvent × MoveResult :=
  match config with
  | Except.error ConfigError.fileNotFound => ([], MoveResult.configFileNotFound)
  | Except.error ConfigError.jsonDecodeError => ([], MoveResult.configJSONDecodeError)
  | Except.ok commands =>
    if (List.lookup from_position commands).isNone then ([], MoveResult.fromNotInCommands)
    else if (List.lookup to_position commands).isNone then ([], MoveResult.toNotInCommands)
    else
      match List.lookup from_position POSITION_DATA, List.lookup to_position POSITION_DATA with
      | some from_data, some to_data =>
        let r := run_steps call commands (move_steps from_position to_position from_data to_data)
        match r.2 with
        | Except.ok _ => (r.1, MoveResult.moveCompleted)
        | Except.error e => (r.1, MoveResult.moveFailed e)
      | _, _ => ([], MoveResult.keyError)

/-- Embedding of Python's `str.lower()` as used on the CLI arguments (app_v2.py
lines 300-301): lowercase the string character by character. -/
def py_lower (s : String) : String := String.mk (s.data.map Char.toLower)

/-- Outcome of `main` (app_v2.py lines 291-329). -/
inductive MainResult where
  | argCountError
  | fromPositionError (msg : String)
  | toPositionError (msg : String)
  | samePositionError
  | moveRun (trace : List ExecEvent) (r : MoveResult)
  deriving DecidableEq, Repr

/-- Embedding of `main` (app_v2.py lines 291-329): argument-count check, the
lowercasing of both positional arguments, validation of both, the equality
check, then the move. -/
def cli_main (call : String → List (String × String) → Except String Unit)
    (config : Except ConfigError (List (String × List Instr)))
    (argv : List String) : MainResult :=
  match argv with
  | [_, arg1, arg2] =>
    let from_position := py_lower arg1
    let to_position := py_lower arg2
    match validate_position from_position with
    | (false, msg) => MainResult.fromPositionError msg
    | (true, _) =>
      match validate_position to_position with
      | (false, msg) => MainResult.toPositionError msg
      | (true, _) =>
        if from_position = to_position then MainResult.samePositionError
        else
          let r := move_chess_piece call config from_position to_position
          MainResult.moveRun r.1 r.2
  | _ => MainResult.argCountError

/-- The sequence executions a `main` invocation performed. -/
def main_trace : MainResult → List ExecEvent
  | MainResult.moveRun tr _ => tr
  | _ => []

/-- Exit code of the `__main__` block (app_v2.py lines 331-338): an exception
escaping `main` is printed and turned into `sys.exit(1)`; every other path
ends the process with exit code 0.  The exceptions that can escape `main` are
a re-raised sequence failure and the `KeyError` of the position-data access. -/
def process_exit_code (m : MainResult) : Nat :=
  match m with
  | MainResult.moveRun _ (MoveResult.moveFailed _) => 1
  | MainResult.moveRun _ MoveResult.keyError => 1
  | _ => 0

/-- Messages printed for the config-load failures (app_v2.py lines 180, 183). -/
def config_error_message : MoveResult → Option String
  | MoveResult.configFileNotFound => some "❌ Error: command.json file not found"
  | MoveResult.configJSONDecodeError => some "❌ Error: Invalid JSON format in command.json"
  | _ => none

/-- Helper: with a never-failing dispatch oracle, replaying any sequence
returns success. -/
theorem exec_seq_ok (call : String → List (String × String) → Except String Unit)
    (hcall : ∀ t a, call t a = Except.ok ()) :
    ∀ seq : List Instr, (execute_robot_sequence call seq).2 = Except.ok () := by
  intro seq
  induction seq with
  | nil => rfl
  | cons i rest ih =>
    cases i with
    | wait s => simpa [execute_robot_sequence] using ih
    | dispatch t a => simp [execute_robot_sequence, hcall t a]; exact ih

/-- Helper: with a never-failing dispatch oracle, every plan step returns
success (a missing label is skipped with a normal return). -/
theorem run_step_ok (call : String → List (String × String) → Except String Unit)
    (commands : List (String × List Instr))
    (hcall : ∀ t a, call t a = Except.ok ()) :
    ∀ s : PlanStep, (run_step call commands s).2 = Except.ok () := by
  intro s
  cases s with
  | named l =>
    simp only [run_step, execute_command_sequence]
    cases hl : List.lookup l commands with
    | none => rfl
    | some seq => simpa using exec_seq_ok call hcall seq
  | home f r => simpa [run_step] using exec_seq_ok call hcall (create_home_sequence f r)

/-- Helper: when every plan step succeeds, `run_steps` runs them all in order
and returns their events. -/
theorem run_steps_all_ok (call : String → List (String × String) → Except String Unit)
    (commands : List (String × List Instr)) (plan : List PlanStep)
    (h : ∀ s ∈ plan, (run_step call commands s).2 = Except.ok ()) :
    run_steps call commands plan =
      (plan.map (fun s => (run_step call commands s).1), Except.ok ()) := by
  induction plan with
  | nil => rfl
  | cons s rest ih =>
    have hs := h s (List.mem_cons_self s rest)
    have hrest := ih (fun x hx => h x (List.mem_cons_of_mem s hx))
    simp [run_steps, hs, hrest]

/-- Helper: a found label runs as a named sequence. -/
theorem tag_run_step_named (call : String → List (String × String) → Except String Unit)
    (commands : List (String × List Instr)) (l : String)
    (h : (List.lookup l commands).isSome) :
    tagOf (run_step call commands (PlanStep.named l)).1 = SeqExec.runNamed l := by
  obtain ⟨seq, hseq⟩ := Option.isSome_iff_exists.mp h
  simp [run_step, execute_command_sequence, hseq, tagOf]

/-- Helper: a missing label is skipped. -/
theorem tag_run_step_missing (call : String → List (String × String) → Except String Unit)
    (commands : List (String × List Instr)) (l : String)
    (h : List.lookup l commands = none) :
    tagOf (run_step call commands (PlanStep.named l)).1 = SeqExec.skippedMissing l := by
  simp [run_step, execute_command_sequence, h, tagOf]

/-- Helper: a home step runs the synthesized home sequence. -/
theorem tag_run_step_home (call : String → List (String × String) → Except String Unit)
    (commands : List (String × List Instr)) (f r : Int) :
    tagOf (run_step call commands (PlanStep.home f r)).1 =
      SeqExec.runHome (create_home_sequence f r) := rfl

/-- Helper: with the command-store and position-table lookups resolving, the
orchestrator reduces to running its eleven-step plan. -/
theorem move_chess_piece_runs_plan
    (call : String → List (String × String) → Except String Unit)
    (commands : List (String × List Instr)) (from_position to_position : String)
    (from_data to_data : PositionEntry)
    (hfc : (List.lookup from_position commands).isSome)
    (htc : (List.lookup to_position commands).isSome)
    (hfd : List.lookup from_position POSITION_DATA = some from_data)
    (htd : List.lookup to_position POSITION_DATA = some to_data) :
    move_chess_piece call (Except.ok commands) from_position to_position =
      (let r := run_steps call commands
        (move_steps from_position to_position from_data to_data)
       match r.2 with
       | Except.ok _ => (r.1, MoveResult.moveCompleted)
       | Except.error e => (r.1, MoveResult.moveFailed e)) := by
  obtain ⟨sf, hsf⟩ := Option.isSome_iff_exists.mp hfc
  obtain ⟨st, hst⟩ := Option.isSome_iff_exists.mp htc
  simp [move_chess_piece, hsf, hst, hfd, htd]

/-- C3: `create_home_sequence` always starts with the fixed four-instruction
skeleton (raise 50mm, tilt -80, lower 75mm, retreat forward mm); exactly when
the rotation is nonzero the fifth instruction rotates by the negated rotation;
`create_home_sequence 70 (-90)` has exactly 5 instructions with fifth a
rotation of +90, and `create_home_sequence 70 0` has exactly 4. -/
theorem C3_home_sequence_shape :
    (∀ forward rotation : Int,
      (create_home_sequence forward rotation).take 4 =
        [Instr.dispatch "move_robot" [("move_gripper_up_mm", "50")],
         Instr.dispatch "move_robot" [("tilt_gripper_down_angle", "-80")],
         Instr.dispatch "move_robot" [("move_gripper_up_mm", "-75")],
         Instr.dispatch "move_robot" [("move_gripper_forward_mm", "-" ++ toString forward)]] ∧
      (rotation ≠ 0 →
        create_home_sequence forward rotation =
          (create_home_sequence forward rotation).take 4 ++
            [Instr.dispatch "move_robot" [("rotate_robot_right_angle", toString (-rotation))]]) ∧
      (rotation = 0 → (create_home_sequence forward rotation).length = 4)) ∧
    (create_home_sequence 70 (-90)).length = 5 ∧
    (create_home_sequence 70 (-90)).get? 4 =
      some (Instr.dispatch "move_robot" [("rotate_robot_right_angle", "90")]) ∧
    (create_home_sequence 70 0).length = 4 := by
  refine ⟨fun forward rotation => ?_, by decide, by decide, by decide⟩
  by_cases hr : rotation = 0 <;>
    simp [create_home_sequence, hr]

/-- Witness for C3 at `forward = 70`, `rotation = -90`. -/
theorem C3_home_sequence_shape_witness :
    create_home_sequence 70 (-90) =
      (create_home_sequence 70 (-90)).take 4 ++
        [Instr.dispatch "move_robot" [("rotate_robot_right_angle", toString (-(-90 : Int)))]] :=
  (C3_home_sequence_shape.1 70 (-90)).2.1 (by decide)

/-- C4: `validate_position` checks its rules in order with first failure
winning — wrong length, then column not in a-h, then row not in 1-8, then
absence from the position table — and "d7" is accepted while "i9", "d" and
"D7" are rejected with the message of the first violated rule (column, length
and column respectively). -/
theorem C4_validate_rules_in_order :
    (∀ s : String, s.data.length ≠ 2 →
      validate_position s =
        (false, "Invalid position format. Use format like \x27d7\x27, \x27e5\x27, etc.")) ∧
    (∀ s : String, ∀ c0 c1 : Char, s.data = [c0, c1] →
      c0 ∉ "abcdefgh".data →
      validate_position s =
        (false, "Invalid column \x27" ++ String.singleton c0 ++ "\x27. Must be a-h.")) ∧
    (∀ s : String, ∀ c0 c1 : Char, s.data = [c0, c1] →
      c0 ∈ "abcdefgh".data → c1 ∉ "12345678".data →
      validate_position s =
        (false, "Invalid row \x27" ++ String.singleton c1 ++ "\x27. Must be 1-8.")) ∧
    (∀ s : String, ∀ c0 c1 : Char, s.data = [c0, c1] →
      c0 ∈ "abcdefgh".data → c1 ∈ "12345678".data →
      List.lookup s POSITION_DATA = none →
      validate_position s =
        (false, "Position \x27" ++ s ++ "\x27 not available in position data.")) ∧
    validate_position "d7" = (true, "Valid") ∧
    validate_position "i9" = (false, "Invalid column \x27i\x27. Must be a-h.") ∧
    validate_position "d" =
      (false, "Invalid position format. Use format like \x27d7\x27, \x27e5\x27, etc.") ∧
    validate_position "D7" = (false, "Invalid column \x27D\x27. Must be a-h.") := by
  refine ⟨fun s h => ?_, fun s c0 c1 hd h0 => ?_, fun s c0 c1 hd h0 h1 => ?_,
    fun s c0 c1 hd h0 h1 h2 => ?_, by decide, by decide, by decide, by decide⟩
  · rcases hd : s.data with _ | ⟨a, _ | ⟨b, _ | ⟨c, t⟩⟩⟩ <;>
      simp_all [validate_position]
  · simp only [validate_position, hd]
    rw [if_pos h0]
  · simp only [validate_position, hd]
    rw [if_neg (not_not_intro h0), if_pos h1]
  · simp only [validate_position, hd]
    rw [if_neg (not_not_intro h0), if_neg (not_not_intro h1),
      if_pos (Option.isNone_iff_eq_none.mpr h2)]

/-- Witness for C4: rule (a) fires on the three-character string "d77". -/
theorem C4_validate_rules_in_order_witness :
    validate_position "d77" =
      (false, "Invalid position format. Use format like \x27d7\x27, \x27e5\x27, etc.") :=
  C4_validate_rules_in_order.1 "d77" (by decide)

/-- C5: the position table has exactly 64 entries, one per coordinate with
column a-h and row 1-8 (keys are distinct and every such coordinate is
present), and every entry has positive forward distance and rotation in
{-90, -67, -45, -22, 0, 22, 45, 67, 90}. -/
theorem C5_position_table_invariants :
    POSITION_DATA.length = 64 ∧
    (POSITION_DATA.map Prod.fst).Nodup ∧
    (∀ c ∈ "abcdefgh".data, ∀ r ∈ "12345678".data,
      (List.lookup (String.mk [c, r]) POSITION_DATA).isSome) ∧
    (∀ p ∈ POSITION_DATA,
      p.2.forward > 0 ∧
      p.2.rotation ∈ ([-90, -67, -45, -22, 0, 22, 45, 67, 90] : List Int)) := by
  refine ⟨by decide, by decide, by decide, by decide⟩

/-- Witness for C5 at the "d7" entry. -/
theorem C5_position_table_invariants_witness :
    (List.lookup (String.mk ['d', '7']) POSITION_DATA).isSome ∧
    (("d7", (⟨70, 0⟩ : PositionEntry)).2.forward > 0 ∧
      ("d7", (⟨70, 0⟩ : PositionEntry)).2.rotation ∈
        ([-90, -67, -45, -22, 0, 22, 45, 67, 90] : List Int)) :=
  ⟨C5_position_table_invariants.2.2.1 'd' (by decide) '7' (by decide),
   C5_position_table_invariants.2.2.2 ("d7", ⟨70, 0⟩) (by decide)⟩

/-- C7: with `command.json` missing or holding malformed JSON,
`move_chess_piece` returns at once with the corresponding descriptive error
message and an empty trace — no robot instruction is dispatched. -/
theorem C7_config_error_no_motion :
    ∀ (call : String → List (String × String) → Except String Unit)
      (from_position to_position : String),
      move_chess_piece call (Except.error ConfigError.fileNotFound)
          from_position to_position = ([], MoveResult.configFileNotFound) ∧
      move_chess_piece call (Except.error ConfigError.jsonDecodeError)
          from_position to_position = ([], MoveResult.configJSONDecodeError) ∧
      config_error_message MoveResult.configFileNotFound =
        some "❌ Error: command.json file not found" ∧
      config_error_message MoveResult.configJSONDecodeError =
        some "❌ Error: Invalid JSON format in command.json" :=
  fun _ _ _ => ⟨rfl, rfl, rfl, rfl⟩

/-- C9: the validator's last rule never fires: any two-character string whose
column character is in a-h and whose row character is in 1-8 is a key of the
position table, so such a string is always accepted as "Valid" and the
"not available in position data" rejection is unreachable. -/
theorem C9_table_rule_unreachable :
    ∀ (s : String) (c0 c1 : Char), s.data = [c0, c1] →
      c0 ∈ "abcdefgh".data → c1 ∈ "12345678".data →
      (List.lookup s POSITION_DATA).isSome ∧ validate_position s = (true, "Valid") := by
  intro s c0 c1 hd h0 h1
  have h0a : c0 ∈ ['a', 'b', 'c', 'd', 'e', 'f', 'g', 'h'] := h0
  have h1a : c1 ∈ ['1', '2', '3', '4', '5', '6', '7', '8'] := h1
  obtain ⟨l⟩ := s
  have hl : l = [c0, c1] := hd
  subst hl
  fin_cases h0a <;> fin_cases h1a <;> exact ⟨by decide, by decide⟩

/-- Witness for C9 at the string "d7". -/
theorem C9_table_rule_unreachable_witness :
    (List.lookup "d7" POSITION_DATA).isSome ∧ validate_position "d7" = (true, "Valid") :=
  C9_table_rule_unreachable "d7" 'd' '7' (by decide) (by decide) (by decide)

/-- C8: with both positional arguments lowercasing to the same valid
coordinate, the CLI entry point stops with the same-position error and
performs no sequence execution; the equality test lives in `cli_main`, not in
`validate_position`, which accepts the coordinate on its own. -/
theorem C8_same_position_rejected :
    ∀ (call : String → List (String × String) → Except String Unit)
      (config : Except ConfigError (List (String × List Instr)))
      (prog a1 a2 : String),
      validate_position (py_lower a1) = (true, "Valid") →
      py_lower a1 = py_lower a2 →
      cli_main call config [prog, a1, a2] = MainResult.samePositionError ∧
      main_trace (cli_main call config [prog, a1, a2]) = [] := by
  intro call config prog a1 a2 hv he
  have h : cli_main call config [prog, a1, a2] = MainResult.samePositionError := by
    simp [cli_main, ← he, hv]
  exact ⟨h, by rw [h]; rfl⟩

/-- Witness for C8 at the arguments "e4" "e4". -/
theorem C8_same_position_rejected_witness :
    cli_main (fun _ _ => Except.ok ()) (Except.error ConfigError.fileNotFound)
        ["app_v2.py", "e4", "e4"] = MainResult.samePositionError ∧
    main_trace (cli_main (fun _ _ => Except.ok ()) (Except.error ConfigError.fileNotFound)
        ["app_v2.py", "e4", "e4"]) = [] :=
  C8_same_position_rejected (fun _ _ => Except.ok ()) (Except.error ConfigError.fileNotFound)
    "app_v2.py" "e4" "e4" (by decide) (by decide)

/-- C10: the CLI entry point lowercases both positional arguments before
validating and moving, so any two invocations whose arguments agree after
lowercasing behave identically; in particular "D7" is treated exactly like
"d7". -/
theorem C10_cli_lowercases_arguments :
    ∀ (call : String → List (String × String) → Except String Unit)
      (config : Except ConfigError (List (String × List Instr)))
      (prog a1 a2 b1 b2 : String),
      py_lower a1 = py_lower b1 → py_lower a2 = py_lower b2 →
      cli_main call config [prog, a1, a2] = cli_main call config [prog, b1, b2] := by
  intro call config prog a1 a2 b1 b2 h1 h2
  simp only [cli_main, h1, h2]

/-- Witness for C10: "D7" at the CLI behaves exactly like "d7". -/
theorem C10_cli_lowercases_arguments_witness :
    cli_main (fun _ _ => Except.ok ()) (Except.error ConfigError.fileNotFound)
        ["app_v2.py", "D7", "D5"] =
      cli_main (fun _ _ => Except.ok ()) (Except.error ConfigError.fileNotFound)
        ["app_v2.py", "d7", "d5"] :=
  C10_cli_lowercases_arguments (fun _ _ => Except.ok ()) (Except.error ConfigError.fileNotFound)
    "app_v2.py" "D7" "D5" "d7" "d5" (by decide) (by decide)

/-- C1: for a validated pair of distinct coordinates present in the command
store (and with dispatches succeeding), the orchestrator issues exactly eleven
sequence executions in the fixed order attack, open, source, close, home for
the source entry, attack, destination, open, home for the destination entry,
close, move_for_cam — and completes. -/
theorem C1_eleven_fixed_sequence_executions
    (call : String → List (String × String) → Except String Unit)
    (commands : List (String × List Instr)) (from_position to_position : String)
    (from_data to_data : PositionEntry)
    (hcall : ∀ t a, call t a = Except.ok ())
    (hvf : validate_position from_position = (true, "Valid"))
    (hvt : validate_position to_position = (true, "Valid"))
    (hne : from_position ≠ to_position)
    (hfc : (List.lookup from_position commands).isSome)
    (htc : (List.lookup to_position commands).isSome)
    (hattack : (List.lookup "attack" commands).isSome)
    (hopen : (List.lookup "open" commands).isSome)
    (hclose : (List.lookup "close" commands).isSome)
    (hcam : (List.lookup "move_for_cam" commands).isSome)
    (hfd : List.lookup from_position POSITION_DATA = some from_data)
    (htd : List.lookup to_position POSITION_DATA = some to_data) :
    (move_chess_piece call (Except.ok commands) from_position to_position).2 =
      MoveResult.moveCompleted ∧
    (move_chess_piece call (Except.ok commands) from_position to_position).1.map tagOf =
      [SeqExec.runNamed "attack",
       SeqExec.runNamed "open",
       SeqExec.runNamed from_position,
       SeqExec.runNamed "close",
       SeqExec.runHome (create_home_sequence from_data.forward from_data.rotation),
       SeqExec.runNamed "attack",
       SeqExec.runNamed to_position,
       SeqExec.runNamed "open",
       SeqExec.runHome (create_home_sequence to_data.forward to_data.rotation),
       SeqExec.runNamed "close",
       SeqExec.runNamed "move_for_cam"] := by
  have hrun := run_steps_all_ok call commands
    (move_steps from_position to_position from_data to_data)
    (fun s _ => run_step_ok call commands hcall s)
  have hmove : move_chess_piece call (Except.ok commands) from_position to_position =
      ((move_steps from_position to_position from_data to_data).map
        (fun s => (run_step call commands s).1), MoveResult.moveCompleted) := by
    rw [move_chess_piece_runs_plan call commands from_position to_position
      from_data to_data hfc htc hfd htd]
    simp [hrun]
  rw [hmove]
  refine ⟨rfl, ?_⟩
  simp only [move_steps, List.map_cons, List.map_nil,
    tag_run_step_named call commands "attack" hattack,
    tag_run_step_named call commands "open" hopen,
    tag_run_step_named call commands from_position hfc,
    tag_run_step_named call commands "close" hclose,
    tag_run_step_named call commands to_position htc,
    tag_run_step_named call commands "move_for_cam" hcam,
    tag_run_step_home call commands]

/-- Witness for C1: the move "d7" to "d5" with a complete command store and a
never-failing oracle performs the eleven executions in order. -/
theorem C1_eleven_fixed_sequence_executions_witness :
    (move_chess_piece (fun _ _ => Except.ok ())
      (Except.ok [("attack", []), ("open", []), ("close", []), ("move_for_cam", []),
        ("d7", []), ("d5", [])]) "d7" "d5").2 = MoveResult.moveCompleted ∧
    (move_chess_piece (fun _ _ => Except.ok ())
      (Except.ok [("attack", []), ("open", []), ("close", []), ("move_for_cam", []),
        ("d7", []), ("d5", [])]) "d7" "d5").1.map tagOf =
      [SeqExec.runNamed "attack",
       SeqExec.runNamed "open",
       SeqExec.runNamed "d7",
       SeqExec.runNamed "close",
       SeqExec.runHome (create_home_sequence (70 : Int) (0 : Int)),
       SeqExec.runNamed "attack",
       SeqExec.runNamed "d5",
       SeqExec.runNamed "open",
       SeqExec.runHome (create_home_sequence (150 : Int) (0 : Int)),
       SeqExec.runNamed "close",
       SeqExec.runNamed "move_for_cam"] :=
  C1_eleven_fixed_sequence_executions (fun _ _ => Except.ok ())
    [("attack", []), ("open", []), ("close", []), ("move_for_cam", []),
      ("d7", []), ("d5", [])] "d7" "d5" ⟨70, 0⟩ ⟨150, 0⟩
    (fun _ _ => rfl) (by decide) (by decide) (by decide) (by decide) (by decide)
    (by decide) (by decide) (by decide) (by decide) (by decide) (by decide)

/-- C2 counterexample: with "close" absent from the command store, the
orchestrator does NOT abort after step 2 — it runs all eleven states,
skipping the two "close" states with a printed error and a normal return, and
the source-coordinate sequence of state 3 dispatches its instruction.  The
claim "execution aborts after step 2 and no instruction from states 3-11 is
dispatched" is false at this input. -/
theorem C2_missing_close_counterexample :
    List.lookup "close"
      [("attack", ([] : List Instr)), ("open", []),
       ("d7", [Instr.dispatch "move_robot" [("move_gripper_forward_mm", "70")]]),
       ("d5", []), ("move_for_cam", [])] = none ∧
    (move_chess_piece (fun _ _ => Except.ok ())
      (Except.ok [("attack", []), ("open", []),
        ("d7", [Instr.dispatch "move_robot" [("move_gripper_forward_mm", "70")]]),
        ("d5", []), ("move_for_cam", [])]) "d7" "d5").1.map tagOf =
      [SeqExec.runNamed "attack",
       SeqExec.runNamed "open",
       SeqExec.runNamed "d7",
       SeqExec.skippedMissing "close",
       SeqExec.runHome (create_home_sequence (70 : Int) (0 : Int)),
       SeqExec.runNamed "attack",
       SeqExec.runNamed "d5",
       SeqExec.runNamed "open",
       SeqExec.runHome (create_home_sequence (150 : Int) (0 : Int)),
       SeqExec.skippedMissing "close",
       SeqExec.runNamed "move_for_cam"] ∧
    (move_chess_piece (fun _ _ => Except.ok ())
      (Except.ok [("attack", []), ("open", []),
        ("d7", [Instr.dispatch "move_robot" [("move_gripper_forward_mm", "70")]]),
        ("d5", []), ("move_for_cam", [])]) "d7" "d5").2 = MoveResult.moveCompleted ∧
    (move_chess_piece (fun _ _ => Except.ok ())
      (Except.ok [("attack", []), ("open", []),
        ("d7", [Instr.dispatch "move_robot" [("move_gripper_forward_mm", "70")]]),
        ("d5", []), ("move_for_cam", [])]) "d7" "d5").1.get? 2 =
      some (ExecEvent.namedSeq "d7"
        [StepEvent.dispatched "move_robot" [("move_gripper_forward_mm", "70")]]) := by
  refine ⟨rfl, by decide, by decide, by decide⟩

/-- C2 as amended: a label absent from the command store at dispatch time is
skipped — `execute_command_sequence` prints an error and returns normally —
and the orchestrator continues with every remaining state; with "close"
missing, states 4 and 10 are skipped, all other states run, and the move
reports completion. -/
theorem C2_missing_close_skipped_not_aborted
    (call : String → List (String × String) → Except String Unit)
    (commands : List (String × List Instr)) (from_position to_position : String)
    (from_data to_data : PositionEntry)
    (hcall : ∀ t a, call t a = Except.ok ())
    (hfc : (List.lookup from_position commands).isSome)
    (htc : (List.lookup to_position commands).isSome)
    (hattack : (List.lookup "attack" commands).isSome)
    (hopen : (List.lookup "open" commands).isSome)
    (hclose : List.lookup "close" commands = none)
    (hcam : (List.lookup "move_for_cam" commands).isSome)
    (hfd : List.lookup from_position POSITION_DATA = some from_data)
    (htd : List.lookup to_position POSITION_DATA = some to_data) :
    (move_chess_piece call (Except.ok commands) from_position to_position).2 =
      MoveResult.moveCompleted ∧
    (move_chess_piece call (Except.ok commands) from_position to_position).1.map tagOf =
      [SeqExec.runNamed "attack",
       SeqExec.runNamed "open",
       SeqExec.runNamed from_position,
       SeqExec.skippedMissing "close",
       SeqExec.runHome (create_home_sequence from_data.forward from_data.rotation),
       SeqExec.runNamed "attack",
       SeqExec.runNamed to_position,
       SeqExec.runNamed "open",
       SeqExec.runHome (create_home_sequence to_data.forward to_data.rotation),
       SeqExec.skippedMissing "close",
       SeqExec.runNamed "move_for_cam"] := by
  have hrun := run_steps_all_ok call commands
    (move_steps from_position to_position from_data to_data)
    (fun s _ => run_step_ok call commands hcall s)
  have hmove : move_chess_piece call (Except.ok commands) from_position to_position =
      ((move_steps from_position to_position from_data to_data).map
        (fun s => (run_step call commands s).1), MoveResult.moveCompleted) := by
    rw [move_chess_piece_runs_plan call commands from_position to_position
      from_data to_data hfc htc hfd htd]
    simp [hrun]
  rw [hmove]
  refine ⟨rfl, ?_⟩
  simp only [move_steps, List.map_cons, List.map_nil,
    tag_run_step_named call commands "attack" hattack,
    tag_run_step_named call commands "open" hopen,
    tag_run_step_named call commands from_position hfc,
    tag_run_step_missing call commands "close" hclose,
    tag_run_step_named call commands to_position htc,
    tag_run_step_named call commands "move_for_cam" hcam,
    tag_run_step_home call commands]

/-- Witness for the amended C2 at the move "d7" to "d5" with "close" missing. -/
theorem C2_missing_close_skipped_not_aborted_witness :
    (move_chess_piece (fun _ _ => Except.ok ())
      (Except.ok [("attack", []), ("open", []),
        ("d7", [Instr.dispatch "move_robot" [("move_gripper_forward_mm", "70")]]),
        ("d5", []), ("move_for_cam", [])]) "d7" "d5").2 = MoveResult.moveCompleted ∧
    (move_chess_piece (fun _ _ => Except.ok ())
      (Except.ok [("attack", []), ("open", []),
        ("d7", [Instr.dispatch "move_robot" [("move_gripper_forward_mm", "70")]]),
        ("d5", []), ("move_for_cam", [])]) "d7" "d5").1.map tagOf =
      [SeqExec.runNamed "attack",
       SeqExec.runNamed "open",
       SeqExec.runNamed "d7",
       SeqExec.skippedMissing "close",
       SeqExec.runHome (create_home_sequence ((⟨70, 0⟩ : PositionEntry)).forward
         ((⟨70, 0⟩ : PositionEntry)).rotation),
       SeqExec.runNamed "attack",
       SeqExec.runNamed "d5",
       SeqExec.runNamed "open",
       SeqExec.runHome (create_home_sequence ((⟨150, 0⟩ : PositionEntry)).forward
         ((⟨150, 0⟩ : PositionEntry)).rotation),
       SeqExec.skippedMissing "close",
       SeqExec.runNamed "move_for_cam"] :=
  C2_missing_close_skipped_not_aborted (fun _ _ => Except.ok ())
    [("attack", []), ("open", []),
      ("d7", [Instr.dispatch "move_robot" [("move_gripper_forward_mm", "70")]]),
      ("d5", []), ("move_for_cam", [])] "d7" "d5" ⟨70, 0⟩ ⟨150, 0⟩
    (fun _ _ => rfl) (by decide) (by decide) (by decide) (by decide) (by decide)
    (by decide) (by decide) (by decide)

/-- Helper: a dispatch failure aborts the remainder of a sequence — the trace
covers exactly the instructions before the failure plus the failing dispatch,
and the raised error is propagated. -/
theorem exec_seq_prefix_fail
    (call : String → List (String × String) → Except String Unit)
    (ipre : List Instr) (t : String) (a : List (String × String)) (e : String)
    (ipost : List Instr)
    (hpre : ∀ t2 a2, Instr.dispatch t2 a2 ∈ ipre → call t2 a2 = Except.ok ())
    (hfail : call t a = Except.error e) :
    execute_robot_sequence call (ipre ++ Instr.dispatch t a :: ipost) =
      (ipre.map stepEventOf ++ [StepEvent.dispatched t a], Except.error e) := by
  induction ipre with
  | nil => simp [execute_robot_sequence, hfail]
  | cons i rest ih =>
    have hrest := ih (fun t2 a2 h2 => hpre t2 a2 (List.mem_cons_of_mem i h2))
    cases i with
    | wait s => simp [execute_robot_sequence, hrest, stepEventOf]
    | dispatch t2 a2 =>
      have h2 : call t2 a2 = Except.ok () :=
        hpre t2 a2 (List.mem_cons_self _ _)
      simp [execute_robot_sequence, h2, hrest, stepEventOf]

/-- Helper: a failing plan step aborts the remaining plan steps — the trace
covers exactly the successful steps plus the failing one, and the error is
propagated. -/
theorem run_steps_prefix_fail
    (call : String → List (String × String) → Except String Unit)
    (commands : List (String × List Instr)) (pre : List PlanStep) (s : PlanStep)
    (post : List PlanStep) (ev : ExecEvent) (e : String)
    (hpre : ∀ s2 ∈ pre, (run_step call commands s2).2 = Except.ok ())
    (hs : run_step call commands s = (ev, Except.error e)) :
    run_steps call commands (pre ++ s :: post) =
      (pre.map (fun s2 => (run_step call commands s2).1) ++ [ev], Except.error e) := by
  induction pre with
  | nil => simp [run_steps, hs]
  | cons p rest ih =>
    have hp := hpre p (List.mem_cons_self p rest)
    have hrest := ih (fun s2 h2 => hpre s2 (List.mem_cons_of_mem p h2))
    simp [run_steps, hp, hrest]

/-- C6: a dispatch failure raised by the remote interface — during any plan
step's sequence, a command-store sequence or a synthesized home sequence —
aborts the rest of the failing sequence (the trace stops at the failing
dispatch), aborts the remaining orchestrator steps without retrying (the move
trace ends with the failing sequence execution and the error is reported as
the move outcome), and the top level turns it into exit code 1. -/
theorem C6_dispatch_failure_propagates
    (call : String → List (String × String) → Except String Unit)
    (commands : List (String × List Instr)) (prog a1 a2 : String)
    (from_data to_data : PositionEntry) (s : PlanStep) (seq ipre : List Instr)
    (t : String) (a : List (String × String)) (e : String) (ipost : List Instr)
    (pre post : List PlanStep)
    (hvf : validate_position (py_lower a1) = (true, "Valid"))
    (hvt : validate_position (py_lower a2) = (true, "Valid"))
    (hne : ¬ (py_lower a1 = py_lower a2))
    (hfc : (List.lookup (py_lower a1) commands).isSome)
    (htc : (List.lookup (py_lower a2) commands).isSome)
    (hfd : List.lookup (py_lower a1) POSITION_DATA = some from_data)
    (htd : List.lookup (py_lower a2) POSITION_DATA = some to_data)
    (hplan : move_steps (py_lower a1) (py_lower a2) from_data to_data =
      pre ++ s :: post)
    (hpre : ∀ s2 ∈ pre, (run_step call commands s2).2 = Except.ok ())
    (hsseq : step_seq commands s = some seq)
    (hseq : seq = ipre ++ Instr.dispatch t a :: ipost)
    (hipre : ∀ t2 a2, Instr.dispatch t2 a2 ∈ ipre → call t2 a2 = Except.ok ())
    (hfail : call t a = Except.error e) :
    execute_robot_sequence call seq =
      (ipre.map stepEventOf ++ [StepEvent.dispatched t a], Except.error e) ∧
    move_chess_piece call (Except.ok commands) (py_lower a1) (py_lower a2) =
      (pre.map (fun s2 => (run_step call commands s2).1) ++
        [step_event s (ipre.map stepEventOf ++ [StepEvent.dispatched t a])],
       MoveResult.moveFailed e) ∧
    cli_main call (Except.ok commands) [prog, a1, a2] =
      MainResult.moveRun
        (pre.map (fun s2 => (run_step call commands s2).1) ++
          [step_event s (ipre.map stepEventOf ++ [StepEvent.dispatched t a])])
        (MoveResult.moveFailed e) ∧
    process_exit_code (cli_main call (Except.ok commands) [prog, a1, a2]) = 1 := by
  have hexec : execute_robot_sequence call seq =
      (ipre.map stepEventOf ++ [StepEvent.dispatched t a], Except.error e) := by
    rw [hseq]
    exact exec_seq_prefix_fail call ipre t a e ipost hipre hfail
  have hstep : run_step call commands s =
      (step_event s (ipre.map stepEventOf ++ [StepEvent.dispatched t a]),
       Except.error e) := by
    cases s with
    | named l =>
      simp only [step_seq] at hsseq
      simp [run_step, execute_command_sequence, hsseq, hexec, step_event]
    | home f r =>
      simp only [step_seq, Option.some.injEq] at hsseq
      subst hsseq
      simp [run_step, hexec, step_event]
  have hruns := run_steps_prefix_fail call commands pre s post
    (step_event s (ipre.map stepEventOf ++ [StepEvent.dispatched t a])) e
    hpre hstep
  have hmove : move_chess_piece call (Except.ok commands) (py_lower a1) (py_lower a2) =
      (pre.map (fun s2 => (run_step call commands s2).1) ++
        [step_event s (ipre.map stepEventOf ++ [StepEvent.dispatched t a])],
       MoveResult.moveFailed e) := by
    rw [move_chess_piece_runs_plan call commands (py_lower a1) (py_lower a2)
      from_data to_data hfc htc hfd htd]
    rw [← hplan] at hruns
    simp [hruns]
  have hmain : cli_main call (Except.ok commands) [prog, a1, a2] =
      MainResult.moveRun
        (pre.map (fun s2 => (run_step call commands s2).1) ++
          [step_event s (ipre.map stepEventOf ++ [StepEvent.dispatched t a])])
        (MoveResult.moveFailed e) := by
    simp [cli_main, hvf, hvt, hne, hmove]
  exact ⟨hexec, hmove, ⟨hmain, by rw [hmain]; rfl⟩⟩

/-- Witness for C6: the first dispatch of the synthesized home sequence for
"d7" (plan step 5) fails with "boom" after the four preceding named sequences
succeed; the home sequence stops at its first instruction, the move reports
the failure, and the process exit code is 1. -/
theorem C6_dispatch_failure_propagates_witness :
    execute_robot_sequence
        (fun t _ => if t = "move_robot" then Except.error "boom" else Except.ok ())
        [Instr.dispatch "move_robot" [("move_gripper_up_mm", "50")],
         Instr.dispatch "move_robot" [("tilt_gripper_down_angle", "-80")],
         Instr.dispatch "move_robot" [("move_gripper_up_mm", "-75")],
         Instr.dispatch "move_robot" [("move_gripper_forward_mm", "-70")]] =
      ([StepEvent.dispatched "move_robot" [("move_gripper_up_mm", "50")]],
       Except.error "boom") ∧
    move_chess_piece
        (fun t _ => if t = "move_robot" then Except.error "boom" else Except.ok ())
        (Except.ok [("attack", []), ("open", []), ("close", []), ("move_for_cam", []),
          ("d7", []), ("d5", [])])
        (py_lower "d7") (py_lower "d5") =
      ([ExecEvent.namedSeq "attack" [], ExecEvent.namedSeq "open" [],
        ExecEvent.namedSeq "d7" [], ExecEvent.namedSeq "close" [],
        ExecEvent.homeSeq (create_home_sequence 70 0)
          [StepEvent.dispatched "move_robot" [("move_gripper_up_mm", "50")]]],
       MoveResult.moveFailed "boom") ∧
    cli_main
        (fun t _ => if t = "move_robot" then Except.error "boom" else Except.ok ())
        (Except.ok [("attack", []), ("open", []), ("close", []), ("move_for_cam", []),
          ("d7", []), ("d5", [])])
        ["app_v2.py", "d7", "d5"] =
      MainResult.moveRun
        [ExecEvent.namedSeq "attack" [], ExecEvent.namedSeq "open" [],
         ExecEvent.namedSeq "d7" [], ExecEvent.namedSeq "close" [],
         ExecEvent.homeSeq (create_home_sequence 70 0)
           [StepEvent.dispatched "move_robot" [("move_gripper_up_mm", "50")]]]
        (MoveResult.moveFailed "boom") ∧
    process_exit_code (cli_main
        (fun t _ => if t = "move_robot" then Except.error "boom" else Except.ok ())
        (Except.ok [("attack", []), ("open", []), ("close", []), ("move_for_cam", []),
          ("d7", []), ("d5", [])])
        ["app_v2.py", "d7", "d5"]) = 1 :=
  C6_dispatch_failure_propagates
    (fun t _ => if t = "move_robot" then Except.error "boom" else Except.ok ())
    [("attack", []), ("open", []), ("close", []), ("move_for_cam", []),
      ("d7", []), ("d5", [])]
    "app_v2.py" "d7" "d5" ⟨70, 0⟩ ⟨150, 0⟩ (PlanStep.home 70 0)
    [Instr.dispatch "move_robot" [("move_gripper_up_mm", "50")],
     Instr.dispatch "move_robot" [("tilt_gripper_down_angle", "-80")],
     Instr.dispatch "move_robot" [("move_gripper_up_mm", "-75")],
     Instr.dispatch "move_robot" [("move_gripper_forward_mm", "-70")]]
    [] "move_robot" [("move_gripper_up_mm", "50")] "boom"
    [Instr.dispatch "move_robot" [("tilt_gripper_down_angle", "-80")],
     Instr.dispatch "move_robot" [("move_gripper_up_mm", "-75")],
     Instr.dispatch "move_robot" [("move_gripper_forward_mm", "-70")]]
    [PlanStep.named "attack", PlanStep.named "open", PlanStep.named "d7",
      PlanStep.named "close"]
    [PlanStep.named "attack", PlanStep.named "d5", PlanStep.named "open",
      PlanStep.home 150 0, PlanStep.named "close", PlanStep.named "move_for_cam"]
    (by decide) (by decide) (by decide) (by decide) (by decide) (by decide) (by decide)
    (by decide) (by intro s2 hs2; fin_cases hs2 <;> rfl) (by decide) rfl (by simp) rfl
